import Mathlib

/-!
Shallow embedding of the volume-based activity detector.

The repository holds two variants of the same triage function:
* `src/threat_detector.py` — the basic variant: a pure rule chain over one
  log record (labels written with an em dash U+2014);
* `src/optimized_threat-detector.py` — the anomaly-scoring variant: the same
  rule chain (labels written with an en dash U+2013) extended with a
  timing-anomaly rule driven by a z-score over the inter-login intervals,
  plus timestamp parsing and a process-wide list `login_times` of parsed
  timestamps.

Python ints are modelled as `Int`, the CSV string fields as `String`.
Timestamps are modelled by their absolute time in seconds (an `Int`); only
differences of timestamps ever reach the arithmetic, so the choice of epoch
is irrelevant.  Float arithmetic on the z-score is modelled over `ℝ`, with an
explicit `NaN` marker (`RVal.nan`) for the 0/0 produced by `stats.zscore`
when the interval standard deviation is zero.
-/

namespace VolumeDetector

/-- A normalized log record, one CSV row after `volume_MB` has been converted
to an integer (`row["volume_MB"] = int(row["volume_MB"])`). -/
structure LogRecord where
  username : String
  geo_location : String
  volume_MB : Int
  known_malicious : String
  timestamp : String
deriving DecidableEq, Repr

/-- The compiled-in trusted user list, identical in both source files. -/
def trusted_users : List String := ["jdoe", "sysadmin", "trusteduser123"]

namespace ThreatDetector

/-- `triage_alert` from `src/threat_detector.py`: the pure if/elif chain over
one record.  Label strings are byte-for-byte those of the source (em dash). -/
def triage_alert (log_entry : LogRecord) : String :=
  if log_entry.volume_MB > 5000 ∧ log_entry.geo_location ≠ "United States" ∧
      log_entry.known_malicious = "True" then
    "escalate to security engineer"
  else if log_entry.volume_MB > 5000 ∧ log_entry.geo_location = "United States" ∧
      log_entry.known_malicious = "True" then
    "alert — high volume, domestic malicious activity"
  else if ((log_entry.volume_MB < 5000 ∧ log_entry.geo_location ≠ "United States") ∨
      log_entry.known_malicious = "True") ∧ log_entry.username ∉ trusted_users then
    "alert — malicious low-volume or known threat"
  else if log_entry.volume_MB < 5000 ∧ log_entry.geo_location = "United States" ∧
      log_entry.username ∉ trusted_users then
    "alert — suspicious low-volume from untrusted internal user"
  else
    "log for review"

end ThreatDetector

/-! ### Timestamp parsing

`src/optimized_threat-detector.py` parses each record's timestamp with
`datetime.strptime`, first with format `"%d/%b/%Y:%H:%M:%S %z"` and, if that
raises `ValueError`, with `"%Y-%m-%dT%H:%M:%SZ"`.  We model `strptime` by a
character-level parser that accepts the same grammar (day 1–2 digits, month a
case-insensitive three-letter abbreviation, year exactly 4 digits, hour /
minute / second 1–2 digits within range, UTC offset `±HHMM`), validates the
calendar date, and returns the instant as seconds on a proleptic Gregorian
axis starting at year 1. -/

/-- Split a character list on a separator character (the separators are
dropped; `n` separators yield `n+1` pieces). -/
def splitOnChar (sep : Char) : List Char → List (List Char)
  | [] => [[]]
  | c :: cs =>
    match splitOnChar sep cs with
    | [] => if c = sep then [[], []] else [[c]]
    | r :: rs => if c = sep then [] :: r :: rs else (c :: r) :: rs

/-- Value of a decimal digit character, `none` on a non-digit. -/
def digitVal (c : Char) : Option Nat :=
  if '0' ≤ c ∧ c ≤ '9' then some (c.toNat - 48) else none

/-- Read a whole character list as a decimal number, requiring between `lo`
and `hi` digits. -/
def parseNatLen (cs : List Char) (lo hi : Nat) : Option Nat :=
  if lo ≤ cs.length ∧ cs.length ≤ hi then
    cs.foldl (fun acc c => do
      let a ← acc
      let d ← digitVal c
      pure (a * 10 + d)) (some 0)
  else none

/-- Month abbreviations of the C locale, lowercased (`strptime` matches
month names case-insensitively). -/
def monthAbbrevs : List (List Char) :=
  ["jan".data, "feb".data, "mar".data, "apr".data, "may".data, "jun".data,
   "jul".data, "aug".data, "sep".data, "oct".data, "nov".data, "dec".data]

/-- Month number (1–12) of a `%b` month abbreviation, case-insensitive. -/
def monthFromAbbrev (cs : List Char) : Option Nat :=
  match (monthAbbrevs.indexOf? (cs.map Char.toLower)) with
  | some i => some (i + 1)
  | none => none

/-- Gregorian leap-year test. -/
def isLeap (y : Nat) : Bool :=
  (y % 4 == 0 && y % 100 != 0) || y % 400 == 0

/-- Length in days of month `m` (1–12) in a (non-)leap year. -/
def monthLength (leap : Bool) (m : Nat) : Nat :=
  match m with
  | 1 => 31 | 2 => if leap then 29 else 28 | 3 => 31 | 4 => 30
  | 5 => 31 | 6 => 30 | 7 => 31 | 8 => 31
  | 9 => 30 | 10 => 31 | 11 => 30 | 12 => 31
  | _ => 0

/-- Days in the years `1, …, y-1` of the proleptic Gregorian calendar. -/
def daysBeforeYear (y : Nat) : Nat :=
  365 * (y - 1) + (y - 1) / 4 - (y - 1) / 100 + (y - 1) / 400

/-- Days in the months `1, …, m-1` of a year with leap flag `leap`. -/
def daysBeforeMonth (leap : Bool) (m : Nat) : Nat :=
  ((List.range (m - 1)).map (fun i => monthLength leap (i + 1))).sum

/-- `datetime` accepts years 1–9999 and validates the day against the
month's length. -/
def validDate (y m d : Nat) : Prop :=
  1 ≤ y ∧ y ≤ 9999 ∧ 1 ≤ m ∧ m ≤ 12 ∧ 1 ≤ d ∧ d ≤ monthLength (isLeap y) m

instance (y m d : Nat) : Decidable (validDate y m d) := by
  unfold validDate; infer_instance

/-- Seconds elapsed from 0001-01-01T00:00:00 to the given civil time. -/
def civilSecs (y m d h mi s : Nat) : Nat :=
  (daysBeforeYear y + daysBeforeMonth (isLeap y) m + (d - 1)) * 86400 +
    h * 3600 + mi * 60 + s

/-- A `%z` UTC offset `±HHMM`, in seconds. -/
def parseTzOffset : List Char → Option Int
  | [sg, h1, h2, m1, m2] => do
    let hh ← parseNatLen [h1, h2] 2 2
    let mm ← parseNatLen [m1, m2] 2 2
    if hh ≤ 23 ∧ mm ≤ 59 then
      if sg = '+' then some ((hh * 3600 + mm * 60 : Nat) : Int)
      else if sg = '-' then some (-((hh * 3600 + mm * 60 : Nat) : Int))
      else none
    else none
  | _ => none

/-- Format A, `"%d/%b/%Y:%H:%M:%S %z"` (e.g. `10/Oct/2025:13:55:36 -0700`).
Returns the UTC instant in seconds since 0001-01-01. -/
def parseFormatA (s : String) : Option Int :=
  match splitOnChar ' ' s.data with
  | [dt, tz] =>
    match splitOnChar ':' dt with
    | [datePart, hh, mm, ss] =>
      match splitOnChar '/' datePart with
      | [dd, mon, yyyy] => do
        let d ← parseNatLen dd 1 2
        let m ← monthFromAbbrev mon
        let y ← parseNatLen yyyy 4 4
        let h ← parseNatLen hh 1 2
        let mi ← parseNatLen mm 1 2
        let s2 ← parseNatLen ss 1 2
        let off ← parseTzOffset tz
        if validDate y m d ∧ h ≤ 23 ∧ mi ≤ 59 ∧ s2 ≤ 59 then
          some ((civilSecs y m d h mi s2 : Int) - off)
        else none
      | _ => none
    | _ => none
  | _ => none

/-- Format B, `"%Y-%m-%dT%H:%M:%SZ"` (e.g. `2025-10-12T13:55:36Z`); the
source builds a naive datetime from it, modelled here as UTC. -/
def parseFormatB (s : String) : Option Int :=
  match splitOnChar 'T' s.data with
  | [datePart, timePart] =>
    match splitOnChar '-' datePart with
    | [yyyy, mm, dd] =>
      if timePart.getLast? = some 'Z' then
        match splitOnChar ':' timePart.dropLast with
        | [hh, mi, ss] => do
          let y ← parseNatLen yyyy 4 4
          let m ← parseNatLen mm 1 2
          let d ← parseNatLen dd 1 2
          let h ← parseNatLen hh 1 2
          let mi2 ← parseNatLen mi 1 2
          let s2 ← parseNatLen ss 1 2
          if validDate y m d ∧ h ≤ 23 ∧ mi2 ≤ 59 ∧ s2 ≤ 59 then
            some ((civilSecs y m d h mi2 s2 : Int))
          else none
        | _ => none
      else none
    | _ => none
  | _ => none

/-- The try/except of `src/optimized_threat-detector.py` lines 15–18: format
A first; only when it fails, format B. -/
def parse_timestamp (s : String) : Option Int :=
  match parseFormatA s with
  | some t => some t
  | none => parseFormatB s

/-! ### The anomaly score

`stats.zscore` works in IEEE floats.  All quantities reaching it here are
exact (intervals are whole numbers of seconds), so we model the arithmetic
over `ℝ`, except for one float artefact the spec calls out: with a zero
standard deviation every numerator `x - mean` is also zero, and `0.0/0.0`
is NaN.  `RVal` adjoins that NaN to `ℝ`; `np.abs` maps NaN to NaN, and any
`>` comparison against NaN is false. -/

/-- A float value as it matters here: a real number or NaN. -/
inductive RVal where
  | nan : RVal
  | val : ℝ → RVal

/-- `np.abs`: NaN stays NaN. -/
noncomputable def RVal.abs : RVal → RVal
  | RVal.nan => RVal.nan
  | RVal.val x => RVal.val |x|

/-- The comparison `score > q`: false whenever the score is NaN. -/
def RVal.gtReal : RVal → ℝ → Prop
  | RVal.nan, _ => False
  | RVal.val x, q => q < x

/-- Population mean, as `np.mean` computes it. -/
noncomputable def popMean (xs : List ℝ) : ℝ := xs.sum / xs.length

/-- Population standard deviation (`ddof = 0`), as `np.std` computes it. -/
noncomputable def popStd (xs : List ℝ) : ℝ :=
  Real.sqrt ((xs.map (fun x => (x - popMean xs) ^ 2)).sum / xs.length)

/-- `stats.zscore(xs)`: each entry is `(x - mean) / std`.  When the standard
deviation is zero the numerator is zero too and the float quotient is NaN
(the `0/0` of line 29 the spec's §4.2 edge case describes); a nonzero
numerator over a zero denominator cannot arise. -/
noncomputable def zscoreList (xs : List ℝ) : List RVal :=
  xs.map (fun x =>
    if popStd xs = 0 then RVal.nan
    else RVal.val ((x - popMean xs) / popStd xs))

/-- The consecutive intervals, in seconds, between the timestamps in arrival
order: `(login_times[i+1] - login_times[i]).total_seconds()` for
`i in range(len(login_times) - 1)`. -/
def intervalsOf (times : List Int) : List ℝ :=
  List.zipWith (fun a b => ((b - a : Int) : ℝ)) times times.tail

/-- Lines 22–30 of `src/optimized_threat-detector.py`: the
`login_interval_score` after the current timestamp has been appended.
`z_scores[-1]` is the last entry of `np.abs(stats.zscore(intervals))`; the
list is nonempty under the `len(login_times) > 2` guard, so the default of
`getLastD` is never consulted. -/
noncomputable def scoreOf (times : List Int) : RVal :=
  if times.length > 2 then
    ((zscoreList (intervalsOf times)).map RVal.abs).getLastD (RVal.val 0)
  else RVal.val 0

namespace Optimized

open Classical in
/-- The if/elif chain of `src/optimized_threat-detector.py` lines 32–57,
over one record and the current `login_interval_score`.  Label strings are
byte-for-byte those of the source (en dash). -/
noncomputable def rulesOpt (log_entry : LogRecord) (login_interval_score : RVal) :
    String :=
  if log_entry.volume_MB > 5000 ∧ log_entry.geo_location ≠ "United States" ∧
      log_entry.known_malicious = "True" then
    "escalate to security engineer"
  else if log_entry.volume_MB > 5000 ∧ log_entry.geo_location = "United States" ∧
      log_entry.known_malicious = "True" then
    "alert – high volume, domestic malicious activity"
  else if ((log_entry.volume_MB < 5000 ∧ log_entry.geo_location ≠ "United States") ∨
      log_entry.known_malicious = "True") ∧ log_entry.username ∉ trusted_users then
    "alert – malicious low-volume or known threat"
  else if log_entry.volume_MB < 5000 ∧ log_entry.geo_location = "United States" ∧
      log_entry.username ∉ trusted_users then
    "alert – suspicious low-volume from untrusted internal user"
  else if login_interval_score.gtReal (5 / 2) ∧ log_entry.username ∉ trusted_users then
    "alert – suspicious login timing anomaly"
  else
    "log for review"

/-- `triage_alert` from `src/optimized_threat-detector.py`, with the
module-level mutable `login_times` made an explicit argument and result.
A `ValueError` from both `strptime` calls (which in the source propagates
out of the function before `login_times.append`) becomes `Except.error`
with the state unchanged. -/
noncomputable def triage_alert (login_times : List Int) (log_entry : LogRecord) :
    List Int × Except String String :=
  match parse_timestamp log_entry.timestamp with
  | none =>
    (login_times, Except.error ("time data " ++ log_entry.timestamp ++
      " does not match either format"))
  | some t =>
    let times := login_times ++ [t]
    (times, Except.ok (rulesOpt log_entry (scoreOf times)))

end Optimized

/-- Modelled from the spec (§4.2 steps 4–5, as cited by the claim): the
**signed** population z-score of the last interval of the arrival-order
interval sequence, against the full sequence's mean and standard
deviation. -/
noncomputable def specSignedZscoreLast (times : List Int) : ℝ :=
  ((intervalsOf times).getLastD 0 - popMean (intervalsOf times)) /
    popStd (intervalsOf times)

/-! ### Helper lemmas -/

/-- `getLastD` commutes with `map` on a nonempty list (the defaults are
never consulted). -/
lemma getLastD_map {α β : Type} (g : α → β) (d : β) (d0 : α) :
    ∀ (l : List α), l ≠ [] → (l.map g).getLastD d = g (l.getLastD d0) := by
  intro l
  induction l generalizing d d0 with
  | nil => intro h; exact absurd rfl h
  | cons a t ih =>
    intro _
    cases t with
    | nil => rfl
    | cons b t2 =>
      have h1 : ((a :: b :: t2).map g).getLastD d = ((b :: t2).map g).getLastD (g a) := by
        simp [List.getLastD]
      rw [h1, ih (g a) a (by simp)]
      have h2 : (a :: b :: t2).getLastD d0 = (b :: t2).getLastD a := by
        simp [List.getLastD]
      rw [h2]

/-- One interval per consecutive pair of timestamps. -/
lemma length_intervalsOf (times : List Int) :
    (intervalsOf times).length = times.length - 1 := by
  simp only [intervalsOf, List.length_zipWith, List.length_tail]
  omega

/-- With more than two timestamps the interval list is nonempty. -/
lemma intervalsOf_ne_nil (times : List Int) (h : times.length > 2) :
    intervalsOf times ≠ [] := by
  intro hnil
  have := length_intervalsOf times
  rw [hnil] at this
  simp at this
  omega

/-- The mean of a constant nonempty list is that constant. -/
lemma popMean_of_constant (a : ℝ) (l : List ℝ) (h : ∀ x ∈ a :: l, x = a) :
    popMean (a :: l) = a := by
  unfold popMean
  rw [List.sum_eq_card_nsmul (a :: l) a h, nsmul_eq_mul]
  have hlen : ((a :: l).length : ℝ) ≠ 0 := by
    simp [Nat.cast_add]
    positivity
  field_simp

/-- A list whose entries are pairwise equal has zero population standard
deviation. -/
lemma popStd_of_constant (xs : List ℝ) (h : ∀ x ∈ xs, ∀ y ∈ xs, x = y) :
    popStd xs = 0 := by
  cases xs with
  | nil => simp [popStd]
  | cons a l =>
    have hall : ∀ x ∈ a :: l, x = a := fun x hx => h x hx a (by simp)
    have hmean := popMean_of_constant a l hall
    unfold popStd
    rw [hmean]
    have hzero : ((a :: l).map (fun x => (x - a) ^ 2)).sum = 0 := by
      refine List.sum_eq_zero fun z hz => ?_
      obtain ⟨x, hx, rfl⟩ := List.mem_map.mp hz
      rw [hall x hx]
      ring
    rw [hzero, zero_div, Real.sqrt_zero]

/-- Rule 5's condition is false both on NaN and on 0, so the two scores
classify every record identically. -/
lemma rulesOpt_nan_eq_val_zero (e : LogRecord) :
    Optimized.rulesOpt e RVal.nan = Optimized.rulesOpt e (RVal.val 0) := by
  unfold Optimized.rulesOpt
  have e1 : ¬(RVal.gtReal RVal.nan (5 / 2) ∧ e.username ∉ trusted_users) :=
    fun h => h.1.elim
  have e2 : ¬(RVal.gtReal (RVal.val 0) (5 / 2) ∧ e.username ∉ trusted_users) := by
    intro h
    have := h.1
    simp only [RVal.gtReal] at this
    norm_num at this
  rw [if_neg e1, if_neg e2]

/-- With a zero score, rule 5 cannot be the rule that fires. -/
lemma rulesOpt_val_zero_ne_timing (e : LogRecord) :
    Optimized.rulesOpt e (RVal.val 0) ≠ "alert – suspicious login timing anomaly" := by
  unfold Optimized.rulesOpt
  split_ifs with h1 h2 h3 h4 h5 <;> try decide
  have := h5.1
  simp only [RVal.gtReal] at this
  norm_num at this

/-- Pairwise-equal intervals give standard deviation 0, hence a NaN score:
every z-score entry is the float `0.0/0.0`. -/
lemma scoreOf_nan_of_constant (times : List Int) (hlen : times.length > 2)
    (heq : ∀ x ∈ intervalsOf times, ∀ y ∈ intervalsOf times, x = y) :
    scoreOf times = RVal.nan := by
  have hstd := popStd_of_constant (intervalsOf times) heq
  have hne := intervalsOf_ne_nil times hlen
  unfold scoreOf
  rw [if_pos hlen]
  unfold zscoreList
  rw [hstd]
  simp only [eq_self_iff_true, if_true, List.map_map]
  have hcomp : (RVal.abs ∘ fun (_ : ℝ) => RVal.nan) = fun _ => RVal.nan := rfl
  rw [hcomp, getLastD_map (fun _ => RVal.nan) (RVal.val 0) 0 _ hne]

/-- Concrete interval list for timestamps `0, 10, 11`. -/
lemma intervalsOf_ten_eleven : intervalsOf [0, 10, 11] = [(10 : ℝ), 1] := by
  simp [intervalsOf]
  norm_num

/-- Mean of the concrete interval list `[10, 1]`. -/
lemma popMean_ten_one : popMean [(10 : ℝ), 1] = 11 / 2 := by
  simp [popMean]
  norm_num

/-- Population standard deviation of the concrete interval list `[10, 1]`. -/
lemma popStd_ten_one : popStd [(10 : ℝ), 1] = 9 / 2 := by
  unfold popStd
  rw [popMean_ten_one]
  have hval : (([(10 : ℝ), 1]).map (fun x => (x - 11 / 2) ^ 2)).sum /
      (([(10 : ℝ), 1]).length : ℝ) = (9 / 2) ^ 2 := by
    simp
    norm_num
  rw [hval, Real.sqrt_sq (by norm_num)]

/-- Anomaly score of the code on timestamps `0, 10, 11`: the absolute
z-score of the last interval. -/
lemma scoreOf_ten_eleven : scoreOf [0, 10, 11] = RVal.val 1 := by
  unfold scoreOf
  rw [if_pos (by decide), intervalsOf_ten_eleven]
  unfold zscoreList
  rw [popStd_ten_one, popMean_ten_one]
  have h92 : ¬((9 / 2 : ℝ) = 0) := by norm_num
  simp only [List.map_cons, List.map_nil, if_neg h92, RVal.abs, List.getLastD]
  have hlast : ((1 : ℝ) - 11 / 2) / (9 / 2) = -1 := by norm_num
  rw [hlast, abs_neg, abs_one]
  rfl

/-- The spec's signed z-score on timestamps `0, 10, 11`. -/
lemma specZ_ten_eleven : specSignedZscoreLast [0, 10, 11] = -1 := by
  unfold specSignedZscoreLast
  rw [intervalsOf_ten_eleven, popMean_ten_one, popStd_ten_one]
  have hlast : (([(10 : ℝ), 1]).getLastD 0) = 1 := by simp [List.getLastD]
  rw [hlast]
  norm_num

/-! ### Claims -/

/-- C1: a record with `volume_MB > 5000`, `geo_location ≠ "United States"`
and `known_malicious = "True"` is labelled `escalate to security engineer`
by both variants, for every username and every accumulated timestamp
history. -/
theorem C1_high_volume_foreign_malicious_escalates
    (e : LogRecord) (hv : e.volume_MB > 5000)
    (hg : e.geo_location ≠ "United States") (hm : e.known_malicious = "True") :
    ThreatDetector.triage_alert e = "escalate to security engineer" ∧
    ∀ (login_times : List Int) (lbl : String),
      (Optimized.triage_alert login_times e).2 = Except.ok lbl →
      lbl = "escalate to security engineer" := by
  constructor
  · unfold ThreatDetector.triage_alert
    rw [if_pos ⟨hv, hg, hm⟩]
  · intro st lbl h
    cases hp : parse_timestamp e.timestamp with
    | none => simp [Optimized.triage_alert, hp] at h
    | some t =>
      simp only [Optimized.triage_alert, hp] at h
      injection h with h
      rw [← h]
      unfold Optimized.rulesOpt
      rw [if_pos ⟨hv, hg, hm⟩]

/-- Witness for C1: a concrete trusted-user record, in the basic variant and
in the anomaly variant starting from the empty history. -/
theorem C1_witness :
    ((6000 : Int) > 5000 ∧ ("Canada" : String) ≠ "United States" ∧
      ("True" : String) = "True") ∧
    ThreatDetector.triage_alert
      ⟨"trusteduser123", "Canada", 6000, "True", "0001-01-01T00:00:10Z"⟩ =
      "escalate to security engineer" ∧
    (Optimized.triage_alert []
      ⟨"trusteduser123", "Canada", 6000, "True", "0001-01-01T00:00:10Z"⟩).2 =
      Except.ok "escalate to security engineer" := by
  have hmain := C1_high_volume_foreign_malicious_escalates
    ⟨"trusteduser123", "Canada", 6000, "True", "0001-01-01T00:00:10Z"⟩
    (by decide) (by decide) rfl
  refine ⟨⟨by decide, by decide, rfl⟩, hmain.1, ?_⟩
  have hp : parse_timestamp "0001-01-01T00:00:10Z" = some 10 := by decide
  have h2 : (Optimized.triage_alert []
      ⟨"trusteduser123", "Canada", 6000, "True", "0001-01-01T00:00:10Z"⟩).2 =
      Except.ok (Optimized.rulesOpt
        ⟨"trusteduser123", "Canada", 6000, "True", "0001-01-01T00:00:10Z"⟩
        (scoreOf ([] ++ [10]))) := by
    simp only [Optimized.triage_alert, hp]
  rw [h2, hmain.2 [] _ h2]

/-- C2: a record whose username is in the trusted set is never given rule
3's label nor rule 4's label, in either variant, whatever its volume, geo
and malicious fields. -/
theorem C2_trusted_user_never_rule3_or_rule4
    (e : LogRecord) (ht : e.username ∈ trusted_users) :
    (ThreatDetector.triage_alert e ≠ "alert — malicious low-volume or known threat" ∧
      ThreatDetector.triage_alert e ≠
        "alert — suspicious low-volume from untrusted internal user") ∧
    ∀ (login_times : List Int) (lbl : String),
      (Optimized.triage_alert login_times e).2 = Except.ok lbl →
      lbl ≠ "alert – malicious low-volume or known threat" ∧
      lbl ≠ "alert – suspicious low-volume from untrusted internal user" := by
  constructor
  · unfold ThreatDetector.triage_alert
    split_ifs with h1 h2 h3 h4
    · exact ⟨by decide, by decide⟩
    · exact ⟨by decide, by decide⟩
    · exact absurd ht h3.2
    · exact absurd ht h4.2.2
    · exact ⟨by decide, by decide⟩
  · intro st lbl h
    cases hp : parse_timestamp e.timestamp with
    | none => simp [Optimized.triage_alert, hp] at h
    | some t =>
      simp only [Optimized.triage_alert, hp] at h
      injection h with h
      rw [← h]
      unfold Optimized.rulesOpt
      split_ifs with h1 h2 h3 h4 h5
      · exact ⟨by decide, by decide⟩
      · exact ⟨by decide, by decide⟩
      · exact absurd ht h3.2
      · exact absurd ht h4.2.2
      · exact absurd ht h5.2
      · exact ⟨by decide, by decide⟩

/-- Witness for C2: the trusted user `jdoe` with fields that would match
rules 3 and 4's other conditions. -/
theorem C2_witness :
    ("jdoe" : String) ∈ trusted_users ∧
    ThreatDetector.triage_alert ⟨"jdoe", "United States", 100, "True", "x"⟩ ≠
      "alert — malicious low-volume or known threat" ∧
    ThreatDetector.triage_alert ⟨"jdoe", "United States", 100, "True", "x"⟩ ≠
      "alert — suspicious low-volume from untrusted internal user" := by
  have hmain := C2_trusted_user_never_rule3_or_rule4
    ⟨"jdoe", "United States", 100, "True", "x"⟩ (by decide)
  exact ⟨by decide, hmain.1.1, hmain.1.2⟩

/-- C10: the basic variant is a pure function of the four non-timestamp
fields: records agreeing on username, geo, volume and malicious flag get
the same label, whatever their timestamps (and the variant holds no state
at all, so prior records cannot influence it either). -/
theorem C10_basic_depends_only_on_four_fields
    (e1 e2 : LogRecord) (hu : e1.username = e2.username)
    (hg : e1.geo_location = e2.geo_location)
    (hv : e1.volume_MB = e2.volume_MB)
    (hm : e1.known_malicious = e2.known_malicious) :
    ThreatDetector.triage_alert e1 = ThreatDetector.triage_alert e2 := by
  cases e1
  cases e2
  dsimp only at hu hg hv hm
  subst hu
  subst hg
  subst hv
  subst hm
  rfl

/-- C3 counterexample: on timestamps `0, 10, 11` the last interval lies
below the mean, so its signed z-score is `-1`, while the code stores the
absolute z-score `1`: the anomaly score is not the signed z-score. -/
theorem C3_counterexample :
    (([0, 10, 11] : List Int)).length > 2 ∧
    scoreOf [0, 10, 11] = RVal.val 1 ∧
    specSignedZscoreLast [0, 10, 11] = -1 ∧
    scoreOf [0, 10, 11] ≠ RVal.val (specSignedZscoreLast [0, 10, 11]) := by
  refine ⟨by decide, scoreOf_ten_eleven, specZ_ten_eleven, ?_⟩
  rw [scoreOf_ten_eleven, specZ_ten_eleven]
  intro hcontra
  injection hcontra with hcontra
  norm_num at hcontra

/-- C3 amended: with more than two timestamps and a nonzero interval
standard deviation, the anomaly score is the **absolute value** of the
population z-score of the last interval. -/
theorem C3_amended_score_is_abs_zscore
    (times : List Int) (hlen : times.length > 2)
    (hstd : popStd (intervalsOf times) ≠ 0) :
    scoreOf times = RVal.val |specSignedZscoreLast times| := by
  have hne := intervalsOf_ne_nil times hlen
  unfold scoreOf
  rw [if_pos hlen]
  unfold zscoreList
  simp only [if_neg hstd, List.map_map]
  have hcomp : (RVal.abs ∘ fun x => RVal.val ((x - popMean (intervalsOf times)) /
      popStd (intervalsOf times))) =
      fun x => RVal.val |(x - popMean (intervalsOf times)) / popStd (intervalsOf times)| := rfl
  rw [hcomp, getLastD_map (fun x => RVal.val |(x - popMean (intervalsOf times)) /
    popStd (intervalsOf times)|) (RVal.val 0) 0 _ hne]
  rfl

/-- Witness for the amended C3 at timestamps `0, 10, 11`. -/
theorem C3_witness :
    (([0, 10, 11] : List Int)).length > 2 ∧
    popStd (intervalsOf [0, 10, 11]) ≠ 0 ∧
    scoreOf [0, 10, 11] = RVal.val |specSignedZscoreLast [0, 10, 11]| := by
  have hstd : popStd (intervalsOf [0, 10, 11]) ≠ 0 := by
    rw [intervalsOf_ten_eleven, popStd_ten_one]
    norm_num
  exact ⟨by decide, hstd, C3_amended_score_is_abs_zscore _ (by decide) hstd⟩

/-- C4 counterexample: at volume exactly 5000, a known-malicious record of
an untrusted user still receives rule 3's label — a volume-based rule
matches through its `known_malicious` disjunct, so the record is not
confined to the timing label or the catch-all. -/
theorem C4_counterexample :
    (⟨"bob", "Canada", 5000, "True", "x"⟩ : LogRecord).volume_MB = 5000 ∧
    ThreatDetector.triage_alert ⟨"bob", "Canada", 5000, "True", "x"⟩ =
      "alert — malicious low-volume or known threat" ∧
    ("alert — malicious low-volume or known threat" : String) ≠
      "alert – suspicious login timing anomaly" ∧
    ("alert — malicious low-volume or known threat" : String) ≠ "log for review" := by
  refine ⟨rfl, by decide, by decide, by decide⟩

/-- C4 amended: at volume exactly 5000 neither volume comparison holds, so
rules 1, 2 and 4 never match; rule 3 still matches exactly when the record
is flagged malicious and the user is untrusted, and otherwise only rule 5
(in the anomaly variant) or the catch-all can label the record. -/
theorem C4_amended_volume_5000
    (e : LogRecord) (hv : e.volume_MB = 5000) :
    ((e.known_malicious = "True" ∧ e.username ∉ trusted_users →
        ThreatDetector.triage_alert e = "alert — malicious low-volume or known threat") ∧
      (¬(e.known_malicious = "True" ∧ e.username ∉ trusted_users) →
        ThreatDetector.triage_alert e = "log for review")) ∧
    ∀ (login_times : List Int) (lbl : String),
      (Optimized.triage_alert login_times e).2 = Except.ok lbl →
      ((e.known_malicious = "True" ∧ e.username ∉ trusted_users →
          lbl = "alert – malicious low-volume or known threat") ∧
        (¬(e.known_malicious = "True" ∧ e.username ∉ trusted_users) →
          lbl = "alert – suspicious login timing anomaly" ∨ lbl = "log for review")) := by
  have hnotgt : ¬(e.volume_MB > 5000) := by omega
  have hnotlt : ¬(e.volume_MB < 5000) := by omega
  have hc1 : ¬(e.volume_MB > 5000 ∧ e.geo_location ≠ "United States" ∧
      e.known_malicious = "True") := fun hc => hnotgt hc.1
  have hc2 : ¬(e.volume_MB > 5000 ∧ e.geo_location = "United States" ∧
      e.known_malicious = "True") := fun hc => hnotgt hc.1
  have hc4 : ¬(e.volume_MB < 5000 ∧ e.geo_location = "United States" ∧
      e.username ∉ trusted_users) := fun hc => hnotlt hc.1
  constructor
  · constructor
    · intro ⟨hm, hu⟩
      unfold ThreatDetector.triage_alert
      rw [if_neg hc1, if_neg hc2, if_pos ⟨Or.inr hm, hu⟩]
    · intro hn
      have hc3 : ¬(((e.volume_MB < 5000 ∧ e.geo_location ≠ "United States") ∨
          e.known_malicious = "True") ∧ e.username ∉ trusted_users) := by
        rintro ⟨hor, hu⟩
        cases hor with
        | inl hlo => exact hnotlt hlo.1
        | inr hm => exact hn ⟨hm, hu⟩
      unfold ThreatDetector.triage_alert
      rw [if_neg hc1, if_neg hc2, if_neg hc3, if_neg hc4]
  · intro st lbl h
    cases hp : parse_timestamp e.timestamp with
    | none => simp [Optimized.triage_alert, hp] at h
    | some t =>
      simp only [Optimized.triage_alert, hp] at h
      injection h with h
      rw [← h]
      constructor
      · intro ⟨hm, hu⟩
        unfold Optimized.rulesOpt
        rw [if_neg hc1, if_neg hc2, if_pos ⟨Or.inr hm, hu⟩]
      · intro hn
        have hc3 : ¬(((e.volume_MB < 5000 ∧ e.geo_location ≠ "United States") ∨
            e.known_malicious = "True") ∧ e.username ∉ trusted_users) := by
          rintro ⟨hor, hu⟩
          cases hor with
          | inl hlo => exact hnotlt hlo.1
          | inr hm => exact hn ⟨hm, hu⟩
        unfold Optimized.rulesOpt
        rw [if_neg hc1, if_neg hc2, if_neg hc3, if_neg hc4]
        by_cases hc5 : (scoreOf (st ++ [t])).gtReal (5 / 2) ∧ e.username ∉ trusted_users
        · left
          rw [if_pos hc5]
        · right
          rw [if_neg hc5]

/-- Witness for the amended C4: a malicious untrusted record of volume
exactly 5000 receives rule 3's label in both variants. -/
theorem C4_witness :
    (⟨"bob", "Canada", 5000, "True", "0001-01-01T00:00:10Z"⟩ : LogRecord).volume_MB = 5000 ∧
    ThreatDetector.triage_alert ⟨"bob", "Canada", 5000, "True", "0001-01-01T00:00:10Z"⟩ =
      "alert — malicious low-volume or known threat" ∧
    (Optimized.triage_alert []
        ⟨"bob", "Canada", 5000, "True", "0001-01-01T00:00:10Z"⟩).2 =
      Except.ok "alert – malicious low-volume or known threat" := by
  have hmain := C4_amended_volume_5000
    ⟨"bob", "Canada", 5000, "True", "0001-01-01T00:00:10Z"⟩ rfl
  refine ⟨rfl, hmain.1.1 ⟨rfl, by decide⟩, ?_⟩
  have hp : parse_timestamp "0001-01-01T00:00:10Z" = some 10 := by decide
  have h2 : (Optimized.triage_alert []
      ⟨"bob", "Canada", 5000, "True", "0001-01-01T00:00:10Z"⟩).2 =
      Except.ok (Optimized.rulesOpt ⟨"bob", "Canada", 5000, "True", "0001-01-01T00:00:10Z"⟩
        (scoreOf ([] ++ [10]))) := by
    simp only [Optimized.triage_alert, hp]
  rw [h2, (hmain.2 [] _ h2).1 ⟨rfl, by decide⟩]

/-- C5 counterexample: the basic variant's domestic high-volume label is
written with an em dash, so on a record meeting the claim's conditions
`triage_alert` does not return the claimed en-dash string. -/
theorem C5_counterexample :
    (⟨"bob", "United States", 6000, "True", "x"⟩ : LogRecord).volume_MB > 5000 ∧
    ThreatDetector.triage_alert ⟨"bob", "United States", 6000, "True", "x"⟩ ≠
      "alert – high volume, domestic malicious activity" := by
  refine ⟨by decide, by decide⟩

/-- C5 amended: a high-volume domestic malicious record gets the en-dash
label `alert – high volume, domestic malicious activity` in the optimized
variant, and the em-dash spelling of the same label in the basic variant. -/
theorem C5_amended_domestic_high_volume
    (e : LogRecord) (hv : e.volume_MB > 5000)
    (hg : e.geo_location = "United States") (hm : e.known_malicious = "True") :
    ThreatDetector.triage_alert e = "alert — high volume, domestic malicious activity" ∧
    ∀ (login_times : List Int) (lbl : String),
      (Optimized.triage_alert login_times e).2 = Except.ok lbl →
      lbl = "alert – high volume, domestic malicious activity" := by
  have hc1 : ¬(e.volume_MB > 5000 ∧ e.geo_location ≠ "United States" ∧
      e.known_malicious = "True") := fun hc => hc.2.1 hg
  constructor
  · unfold ThreatDetector.triage_alert
    rw [if_neg hc1, if_pos ⟨hv, hg, hm⟩]
  · intro st lbl h
    cases hp : parse_timestamp e.timestamp with
    | none => simp [Optimized.triage_alert, hp] at h
    | some t =>
      simp only [Optimized.triage_alert, hp] at h
      injection h with h
      rw [← h]
      unfold Optimized.rulesOpt
      rw [if_neg hc1, if_pos ⟨hv, hg, hm⟩]

/-- Witness for the amended C5 at a concrete domestic malicious record. -/
theorem C5_witness :
    (⟨"jdoe", "United States", 6000, "True", "0001-01-01T00:00:10Z"⟩ : LogRecord).volume_MB
      > 5000 ∧
    ThreatDetector.triage_alert ⟨"jdoe", "United States", 6000, "True",
        "0001-01-01T00:00:10Z"⟩ =
      "alert — high volume, domestic malicious activity" ∧
    (Optimized.triage_alert []
        ⟨"jdoe", "United States", 6000, "True", "0001-01-01T00:00:10Z"⟩).2 =
      Except.ok "alert – high volume, domestic malicious activity" := by
  have hmain := C5_amended_domestic_high_volume
    ⟨"jdoe", "United States", 6000, "True", "0001-01-01T00:00:10Z"⟩ (by decide) rfl rfl
  refine ⟨by decide, hmain.1, ?_⟩
  have hp : parse_timestamp "0001-01-01T00:00:10Z" = some 10 := by decide
  have h2 : (Optimized.triage_alert []
      ⟨"jdoe", "United States", 6000, "True", "0001-01-01T00:00:10Z"⟩).2 =
      Except.ok (Optimized.rulesOpt
        ⟨"jdoe", "United States", 6000, "True", "0001-01-01T00:00:10Z"⟩
        (scoreOf ([] ++ [10]))) := by
    simp only [Optimized.triage_alert, hp]
  rw [h2, hmain.2 [] _ h2]

/-- C8: on an input whose computed intervals are all equal the evaluation
still returns a classification and raises no error: every z-score entry is
the float `0/0` (NaN), the NaN fails rule 5's `> 2.5` comparison, and the
record is classified exactly as the remaining rules would classify it with
a zero score. -/
theorem C8_zero_variance_still_classifies
    (login_times : List Int) (e : LogRecord) (t : Int)
    (hp : parse_timestamp e.timestamp = some t)
    (hlen : (login_times ++ [t]).length > 2)
    (heq : ∀ x ∈ intervalsOf (login_times ++ [t]),
      ∀ y ∈ intervalsOf (login_times ++ [t]), x = y) :
    scoreOf (login_times ++ [t]) = RVal.nan ∧
    (Optimized.triage_alert login_times e).2 =
      Except.ok (Optimized.rulesOpt e (RVal.val 0)) ∧
    ∀ lbl, (Optimized.triage_alert login_times e).2 = Except.ok lbl →
      lbl ≠ "alert – suspicious login timing anomaly" := by
  have hnan := scoreOf_nan_of_constant _ hlen heq
  have h2 : (Optimized.triage_alert login_times e).2 =
      Except.ok (Optimized.rulesOpt e (scoreOf (login_times ++ [t]))) := by
    simp only [Optimized.triage_alert, hp]
  refine ⟨hnan, ?_, ?_⟩
  · rw [h2, hnan, rulesOpt_nan_eq_val_zero]
  · intro lbl hlbl
    rw [h2, hnan, rulesOpt_nan_eq_val_zero] at hlbl
    injection hlbl with hlbl
    rw [← hlbl]
    exact rulesOpt_val_zero_ne_timing e

/-- Witness for C8: three timestamps ten seconds apart (intervals `[10, 10]`,
zero variance). -/
theorem C8_witness :
    parse_timestamp "0001-01-01T00:00:20Z" = some 20 ∧
    (([0, 10] : List Int) ++ [20]).length > 2 ∧
    scoreOf (([0, 10] : List Int) ++ [20]) = RVal.nan ∧
    (Optimized.triage_alert [0, 10]
        ⟨"jdoe", "United States", 100, "False", "0001-01-01T00:00:20Z"⟩).2 =
      Except.ok (Optimized.rulesOpt
        ⟨"jdoe", "United States", 100, "False", "0001-01-01T00:00:20Z"⟩
        (RVal.val 0)) := by
  have hiv : intervalsOf (([0, 10] : List Int) ++ [20]) = [(10 : ℝ), 10] := by
    simp [intervalsOf]
    norm_num
  have heq : ∀ x ∈ intervalsOf (([0, 10] : List Int) ++ [20]),
      ∀ y ∈ intervalsOf (([0, 10] : List Int) ++ [20]), x = y := by
    intro x hx y hy
    rw [hiv] at hx hy
    simp at hx hy
    rw [hx, hy]
  have hmain := C8_zero_variance_still_classifies [0, 10]
    ⟨"jdoe", "United States", 100, "False", "0001-01-01T00:00:20Z"⟩ 20
    (by decide) (by decide) heq
  exact ⟨by decide, by decide, hmain.1, hmain.2.1⟩

/-- C6: with at most two timestamps in the history (after appending the
current one) the anomaly score is the constant 0, and hence rule 5's
timing-anomaly label is unreachable for the first two records processed. -/
theorem C6_score_zero_with_short_history :
    (∀ times : List Int, times.length ≤ 2 → scoreOf times = RVal.val 0) ∧
    ∀ (login_times : List Int) (e : LogRecord), login_times.length ≤ 1 →
      ∀ lbl, (Optimized.triage_alert login_times e).2 = Except.ok lbl →
        lbl ≠ "alert – suspicious login timing anomaly" := by
  have hscore : ∀ times : List Int, times.length ≤ 2 → scoreOf times = RVal.val 0 := by
    intro times h
    unfold scoreOf
    rw [if_neg (by omega)]
  refine ⟨hscore, ?_⟩
  intro st e hst lbl h
  cases hp : parse_timestamp e.timestamp with
  | none => simp [Optimized.triage_alert, hp] at h
  | some t =>
    simp only [Optimized.triage_alert, hp] at h
    injection h with h
    rw [← h, hscore (st ++ [t])
      (by simp only [List.length_append, List.length_singleton]; omega)]
    exact rulesOpt_val_zero_ne_timing e

/-- Witness for C6: the second record of a run (history of one entry). -/
theorem C6_witness :
    ([] : List Int).length ≤ 1 ∧
    scoreOf [10] = RVal.val 0 ∧
    (Optimized.triage_alert [] ⟨"bob", "France", 100, "False", "0001-01-01T00:00:10Z"⟩).2 ≠
      Except.ok "alert – suspicious login timing anomaly" := by
  have hmain := C6_score_zero_with_short_history
  refine ⟨by decide, hmain.1 [10] (by decide), ?_⟩
  intro hcontra
  exact hmain.2 [] _ (by decide) _ hcontra rfl

/-- C7: format A is attempted first and wins when it matches; format B is
attempted exactly when A fails; when both fail, evaluating the record
yields a parse error and never a classification. -/
theorem C7_parse_order_and_failure :
    (∀ (s : String) (t : Int), parseFormatA s = some t → parse_timestamp s = some t) ∧
    (∀ s : String, parseFormatA s = none → parse_timestamp s = parseFormatB s) ∧
    ∀ (login_times : List Int) (e : LogRecord),
      parseFormatA e.timestamp = none → parseFormatB e.timestamp = none →
      (Optimized.triage_alert login_times e).2 =
        Except.error ("time data " ++ e.timestamp ++ " does not match either format") ∧
      ∀ lbl, (Optimized.triage_alert login_times e).2 ≠ Except.ok lbl := by
  have hdef : ∀ s : String, parseFormatA s = none → parse_timestamp s = parseFormatB s := by
    intro s hA
    unfold parse_timestamp
    rw [hA]
  refine ⟨?_, hdef, ?_⟩
  · intro s t hA
    unfold parse_timestamp
    rw [hA]
  · intro st e hA hB
    have hp : parse_timestamp e.timestamp = none := by rw [hdef _ hA, hB]
    constructor
    · simp [Optimized.triage_alert, hp]
    · intro lbl hcontra
      simp [Optimized.triage_alert, hp] at hcontra

/-- Witness for C7: a format-A string, a format-B string and a string
matching neither, the latter evaluated against a one-entry history. -/
theorem C7_witness :
    parseFormatA "01/Jan/0001:00:00:30 +0000" = some 30 ∧
    parse_timestamp "01/Jan/0001:00:00:30 +0000" = some 30 ∧
    parseFormatA "0001-01-01T00:00:10Z" = none ∧
    parse_timestamp "0001-01-01T00:00:10Z" = parseFormatB "0001-01-01T00:00:10Z" ∧
    parseFormatA "not-a-timestamp" = none ∧
    parseFormatB "not-a-timestamp" = none ∧
    (Optimized.triage_alert [0] ⟨"bob", "France", 100, "False", "not-a-timestamp"⟩).2 =
      Except.error ("time data " ++ "not-a-timestamp" ++ " does not match either format") := by
  have hmain := C7_parse_order_and_failure
  refine ⟨by decide, hmain.1 _ 30 (by decide), by decide, hmain.2.1 _ (by decide),
    by decide, by decide, ?_⟩
  exact (hmain.2.2 [0] ⟨"bob", "France", 100, "False", "not-a-timestamp"⟩
    (by decide) (by decide)).1

/-- C9: the history is extended exactly on a successful parse: a record
whose timestamp fails both formats leaves the history unchanged, one whose
timestamp parses appends exactly that timestamp. -/
theorem C9_history_unchanged_on_parse_failure :
    (∀ (login_times : List Int) (e : LogRecord),
      parse_timestamp e.timestamp = none →
        (Optimized.triage_alert login_times e).1 = login_times) ∧
    ∀ (login_times : List Int) (e : LogRecord) (t : Int),
      parse_timestamp e.timestamp = some t →
        (Optimized.triage_alert login_times e).1 = login_times ++ [t] := by
  constructor
  · intro st e hp
    simp [Optimized.triage_alert, hp]
  · intro st e t hp
    simp [Optimized.triage_alert, hp]

/-- Witness for C9: a failing record leaves the one-entry history `[0]`
untouched; a succeeding one appends its parsed timestamp. -/
theorem C9_witness :
    parse_timestamp "not-a-timestamp" = none ∧
    (Optimized.triage_alert [0] ⟨"bob", "France", 100, "False", "not-a-timestamp"⟩).1 = [0] ∧
    parse_timestamp "0001-01-01T00:00:10Z" = some 10 ∧
    (Optimized.triage_alert [0] ⟨"bob", "France", 100, "False", "0001-01-01T00:00:10Z"⟩).1 =
      [0] ++ [10] := by
  have hmain := C9_history_unchanged_on_parse_failure
  exact ⟨by decide, hmain.1 [0] _ (by decide), by decide, hmain.2 [0] _ 10 (by decide)⟩

/-- Witness for C10: two records equal except for their timestamps. -/
theorem C10_witness :
    ("bob" : String) = "bob" ∧
    ThreatDetector.triage_alert
      ⟨"bob", "United States", 9000, "False", "01/Jan/0001:00:00:30 +0000"⟩ =
    ThreatDetector.triage_alert
      ⟨"bob", "United States", 9000, "False", "0001-01-01T00:00:10Z"⟩ :=
  ⟨rfl, C10_basic_depends_only_on_four_fields _ _ rfl rfl rfl rfl⟩

end VolumeDetector
